import Mathlib

/-!
Shallow embedding of `geomcompare/io.py`: the geometry extraction, filtering
and reprojection-aware write-back pipeline.  Pure data is modelled directly;
the external collaborators (the OGR vector store, the PostGIS connection and
the coordinate-transform service) are modelled as explicit environment
structures, and geometries are carried symbolically so that the application
of a coordinate transform is observable in the value itself.
-/

namespace GeomCompare

/-- Modelled from the spec: the geometry-type families of the data model
(point/line/polygon, single or multi); a shapely geometry `geom_type`
always falls in this fixed set. -/
inductive GeomType
  | point
  | lineString
  | polygon
  | multiPoint
  | multiLineString
  | multiPolygon
deriving DecidableEq, Repr, Inhabited

/-- Modelled from the spec: `geom_type_mapping` (imported from
`geomutils`, not under `src/`) maps a geometry-type family to the vector
store layer geometry-type code. -/
def geom_type_mapping : GeomType → Nat
  | .point => 1
  | .lineString => 2
  | .polygon => 3
  | .multiPoint => 4
  | .multiLineString => 5
  | .multiPolygon => 6

/-- A symbolic geometry value: either an original shape or the result of a
coordinate transform between two EPSG systems applied to one.  The
constructor records the transform, making reprojection observable. -/
inductive GeomVal
  | base (id : Nat)
  | reproj (srcEpsg dstEpsg : Int) (g : GeomVal)
deriving DecidableEq, Repr, Inhabited

/-- A geometry as carried through the pipeline: a symbolic shape value plus
its geometry-type family (reprojection preserves the family). -/
structure Geom where
  val : GeomVal
  gty : GeomType
deriving DecidableEq, Repr, Inhabited

/-- Modelled from the spec: `get_transform_func` (imported from `geomutils`,
not under `src/`), the coordinate transform collaborator of §4.1: given a
source and a target EPSG identifier it returns a function converting a
geometry coordinates.  Modelled symbolically: applying it wraps the value
in a `reproj` node. -/
def get_transform_func (srcEpsg dstEpsg : Int) : Geom → Geom :=
  fun g => ⟨.reproj srcEpsg dstEpsg g.val, g.gty⟩

/-- Modelled from the spec: `unchanged_geom` (imported from `geomutils`,
not under `src/`), the identity transform. -/
def unchanged_geom : Geom → Geom := id

/-- A single-quote character, used when building SQL literals. -/
def sq : String := Char.toString (Char.ofNat 39)

/-- Symbolic well-known-text serialization of a geometry value (injective,
so the value embedded into a SQL literal is recoverable). -/
def GeomVal.wktStr : GeomVal → String
  | .base n => "GEOM_" ++ toString n
  | .reproj s d g => "REPROJ_" ++ toString s ++ "_" ++ toString d ++ "_" ++ g.wktStr

/-- The `.wkt` accessor used when a geometry crosses a collaborator
boundary as text. -/
def Geom.wkt (g : Geom) : String := g.val.wktStr

/-! ## The file-backed vector store (OGR collaborator model) -/

/-- A feature of a layer: a feature identifier and its geometry. -/
structure Feature where
  fid : Nat
  geom : Geom
deriving DecidableEq, Repr, Inhabited

/-- A layer of a file dataset: a name, an optionally resolvable native EPSG
(`none` models a spatial reference that `_get_layer_epsg` cannot identify),
a geometry-type code and the stored features. -/
structure Layer where
  name : String
  epsg : Option Int
  geomTypeCode : Nat
  features : List Feature
deriving DecidableEq, Repr, Inhabited

/-- A file dataset: its layers, plus whether the driver can open it for
writing (update mode). -/
structure Dataset where
  layers : List Layer
  writable : Bool
deriving DecidableEq, Repr, Inhabited

/-- A layer selector: positional index or name. -/
inductive LyrSel
  | idx (i : Nat)
  | name (s : String)
deriving DecidableEq, Repr

/-- The file system visible to the drivers: an association of paths to
datasets. -/
structure FileSystem where
  entries : List (String × Dataset)
deriving DecidableEq, Repr

/-- `os.path.exists` / `driver.Open(filename)` (read-only). -/
def FileSystem.lookup (fs : FileSystem) (p : String) : Option Dataset :=
  (fs.entries.find? (fun e => decide (e.1 = p))).map (·.2)

/-- `driver.DeleteDataSource(filename)`. -/
def FileSystem.erase (fs : FileSystem) (p : String) : FileSystem :=
  ⟨fs.entries.filter (fun e => decide (e.1 ≠ p))⟩

/-- `driver.CreateDataSource(filename)` followed by writing a dataset:
replaces whatever was stored at the path. -/
def FileSystem.store (fs : FileSystem) (p : String) (d : Dataset) : FileSystem :=
  ⟨(p, d) :: (fs.erase p).entries⟩

/-- `driver.Open(filename, 1)`: open for writing; `none` when the path has
no dataset or when the dataset is not writable by the driver. -/
def openForWrite (fs : FileSystem) (p : String) : Option Dataset :=
  match fs.lookup p with
  | some ds => if ds.writable then some ds else none
  | none => none

/-- `ds.GetLayer(sel)`: a layer by positional index or by name; `none` when
absent. -/
def Dataset.getLayer (ds : Dataset) (sel : LyrSel) : Option Layer :=
  match sel with
  | .idx i => ds.layers[i]?
  | .name s => ds.layers.find? (fun l => decide (l.name = s))

/-- The target-layer resolution of `_update_geoms_file` (lines 260-262):
`ds.GetLayer(layer_name)`, falling back to `ds.GetLayer()` (the first
layer) when the named layer is absent; `none` when the dataset has no
layer at all.  Returns the index of the resolved layer. -/
def Dataset.resolveLayerIdx (ds : Dataset) (nm : String) : Option Nat :=
  match ds.layers.findIdx? (fun l => decide (l.name = nm)) with
  | some i => some i
  | none => if ds.layers.isEmpty then none else some 0

/-- The OGR environment: which drivers are available, and the store
filter semantics (spatial intersection and attribute-filter matching),
treated as abstract collaborator predicates. -/
structure OgrEnv where
  drivers : List String
  intersects : Geom → Geom → Bool
  attrMatch : String → Feature → Bool

/-! ## The database source: `fetch_geoms_from_pg` -/

/-- Errors of the database source: `MissingParameter` (a required argument
combination not satisfied, raised as `ValueError` in the source) and
`DecodeFailure` (malformed binary geometry in a fetched row). -/
inductive PgErr
  | missingParameter
  | decodeFailure
deriving DecidableEq, Repr

/-- The relational store collaborator: `Find_SRID` spatial metadata for a
`(schema, table, column)` triple, and execution of an arbitrary SQL query
returning rows of binary geometry (`none` models a malformed row that
`wkb.loads` rejects). -/
structure PgEnv where
  findSrid : String → String → String → Int
  execQuery : String → List (Option Geom)

/-- The observable outcome of exhausting the generator: the queries
executed on the cursor (in order), the geometries yielded (in order), and
the error terminating the iteration, if any. -/
structure PgResult where
  queries : List String
  geoms : List Geom
  err : Option PgErr
deriving DecidableEq, Repr

/-- The row-decoding loop (`for row in cursor: yield wkb.loads(...)`):
yields decoded geometries until a malformed row stops the iteration. -/
def decodeRows : List (Option Geom) → List Geom × Option PgErr
  | [] => ([], none)
  | some g :: rest =>
      let r := decodeRows rest
      (g :: r.1, r.2)
  | none :: _ => ([], some .decodeFailure)

/-- The `SELECT Find_SRID(...)` metadata query string built by the source. -/
def pgSridQuery (schema table column : String) : String :=
  "SELECT Find_SRID(" ++ sq ++ schema ++ sq ++ ", " ++ sq ++ table ++ sq ++
    ", " ++ sq ++ column ++ sq ++ ");"

/-- Embedding of `fetch_geoms_from_pg` (io.py lines 100-137), as the result
of exhausting the returned generator.  `conn` is the pre-built connection
(if `none`, the five credentials must all be supplied); exactly one of
`sql_query` or the complete `(schema, table, column)` triple must be
given.  Mirrors the source: the spatial-metadata query runs only when an
AOI or an `output_epsg` is requested; the AOI is reprojected when its
declared EPSG differs from the store; `output_epsg` is pushed down as an
`ST_Transform` on the selected column. -/
def fetch_geoms_from_pg (env : PgEnv) (conn : Option Unit)
    (host dbname user password port : Option String)
    (sql_query schema table column : Option String)
    (aoi : Option Geom) (aoi_epsg output_epsg : Option Int) : PgResult :=
  if conn = none ∧ (host = none ∨ dbname = none ∨ user = none ∨
      password = none ∨ port = none) then
    ⟨[], [], some .missingParameter⟩
  else
    match sql_query with
    | some q =>
        let r := decodeRows (env.execQuery q)
        ⟨[q], r.1, r.2⟩
    | none =>
        match schema, table, column with
        | some s, some t, some c =>
            let pg_epsg := env.findSrid s t c
            let sridQs : List String :=
              if aoi.isSome || output_epsg.isSome then [pgSridQuery s t c] else []
            let where_filter := "WHERE " ++ c ++ " IS NOT NULL"
            let spatial_filter :=
              match aoi with
              | some a =>
                  let a2 :=
                    match aoi_epsg with
                    | some e => if e ≠ pg_epsg then get_transform_func e pg_epsg a else a
                    | none => a
                  " AND ST_Intersects(" ++ c ++ ", ST_GeomFromText(" ++ sq ++
                    a2.wkt ++ sq ++ ", " ++ toString pg_epsg ++ "));"
              | none => ";"
            let colExpr :=
              match output_epsg with
              | some oe => if oe ≠ pg_epsg then
                  "ST_Transform(" ++ c ++ ", " ++ toString oe ++ ")" else c
              | none => c
            let q := "SELECT ST_AsBinary(" ++ colExpr ++ ") FROM " ++ s ++ "." ++
              t ++ " " ++ where_filter ++ spatial_filter
            let r := decodeRows (env.execQuery q)
            ⟨sridQs ++ [q], r.1, r.2⟩
        | _, _, _ => ⟨[], [], some .missingParameter⟩

/-! ## The file source: `extract_geoms_from_file` -/

/-- Errors of the file source: nonexistent file, unavailable driver, a
malformed `layers` argument, an operation on a missing (`None`) layer, and
a direct fetch of a nonexistent feature identifier. -/
inductive ExtractErr
  | datasetNotFound
  | driverUnavailable
  | malformedLayersArg
  | noneLayer
  | missingFeature
deriving DecidableEq, Repr

/-- The shape of the `layers` argument as the source inspects it:
`None`, a proper sequence of selectors, a bare string, or some other
non-sequence value (the last two are rejected as ambiguous). -/
inductive LayersArg
  | noneArg
  | seq (ls : List LyrSel)
  | bareString (s : String)
  | nonSeq
deriving DecidableEq, Repr

/-- Lookup in one of the per-layer maps (`aoi.get(lyr)` and friends). -/
def amapGet {α : Type} (m : List (LyrSel × α)) (k : LyrSel) : Option α :=
  (m.find? (fun e => decide (e.1 = k))).map (·.2)

/-- The combined filter installed on a layer: a feature passes when it
intersects the installed spatial filter (if any) and matches the installed
attribute filter (if any).  Collaborator semantics of the vector store. -/
def featureMatches (env : OgrEnv) (spatialF : Option Geom) (attrF : Option String)
    (f : Feature) : Bool :=
  (match spatialF with
   | some a => env.intersects f.geom a
   | none => true) &&
  (match attrF with
   | some flt => env.attrMatch flt f
   | none => true)

/-- The direct-fetch loop of the fast path (io.py lines 210-213):
`for fid in lyr_fids: lyr_obj.GetFeature(fid) ... yield`.  Yields the
geometry of each listed feature in list order; fails on a missing layer or
a missing feature identifier, keeping the geometries yielded so far. -/
def directFetchLoop (lyrObj : Option Layer) (fl : List Nat) :
    List Geom × Option ExtractErr :=
  match fl with
  | [] => ([], none)
  | fid :: rest =>
      match lyrObj with
      | none => ([], some .noneLayer)
      | some lyr =>
          match lyr.features.find? (fun f => decide (f.fid = fid)) with
          | none => ([], some .missingFeature)
          | some f =>
              let r := directFetchLoop lyrObj rest
              (f.geom :: r.1, r.2)

/-- The per-layer body of the extraction loop (io.py lines 193-217):
resolve the layer, resolve and install the per-layer AOI (reprojecting it
into the layer CRS when its declared EPSG differs from a resolvable
layer EPSG), install the attribute filter, then either take the
direct-fetch-by-ID fast path (only when neither AOI nor attribute filter
is set and feature IDs are set) or scan the layer with the installed
filters applied. -/
def process_layer (env : OgrEnv) (ds : Dataset) (sel : LyrSel)
    (aoiM : List (LyrSel × Geom)) (epsgM : List (LyrSel × Int))
    (attrM : List (LyrSel × String)) (fidsM : List (LyrSel × List Nat)) :
    List Geom × Option ExtractErr :=
  let lyrObj := ds.getLayer sel
  match amapGet aoiM sel with
  | some a0 =>
      match amapGet epsgM sel with
      | some e =>
          match lyrObj with
          | none => ([], some .noneLayer)
          | some lyr =>
              let a :=
                match lyr.epsg with
                | some le => if le ≠ e then get_transform_func e le a0 else a0
                | none => a0
              ((lyr.features.filter
                  (featureMatches env (some a) (amapGet attrM sel))).map (·.geom),
               none)
      | none =>
          match lyrObj with
          | none => ([], some .noneLayer)
          | some lyr =>
              ((lyr.features.filter
                  (featureMatches env (some a0) (amapGet attrM sel))).map (·.geom),
               none)
  | none =>
      match amapGet attrM sel with
      | some flt =>
          match lyrObj with
          | none => ([], some .noneLayer)
          | some lyr =>
              ((lyr.features.filter (featureMatches env none (some flt))).map
                 (·.geom),
               none)
      | none =>
          match amapGet fidsM sel with
          | some fl => directFetchLoop lyrObj fl
          | none =>
              match lyrObj with
              | none => ([], some .noneLayer)
              | some lyr => (lyr.features.map (·.geom), none)

/-- The outer loop of the extraction over the selected layers, in selector
order, concatenating each layer yields and stopping at the first
error. -/
def runLayers (env : OgrEnv) (ds : Dataset) (sels : List LyrSel)
    (aoiM : List (LyrSel × Geom)) (epsgM : List (LyrSel × Int))
    (attrM : List (LyrSel × String)) (fidsM : List (LyrSel × List Nat)) :
    List Geom × Option ExtractErr :=
  match sels with
  | [] => ([], none)
  | sel :: rest =>
      let r := process_layer env ds sel aoiM epsgM attrM fidsM
      match r.2 with
      | some e => (r.1, some e)
      | none =>
          let r2 := runLayers env ds rest aoiM epsgM attrM fidsM
          (r.1 ++ r2.1, r2.2)

/-- Embedding of `extract_geoms_from_file` (io.py lines 148-218), as the
result of exhausting the returned generator: existence check, driver
check, `layers` argument validation (`None` resolves to all layer
indices), then the per-layer loop. -/
def extract_geoms_from_file (env : OgrEnv) (fs : FileSystem)
    (filename driver_name : String) (layers : LayersArg)
    (aoiM : List (LyrSel × Geom)) (epsgM : List (LyrSel × Int))
    (attrM : List (LyrSel × String)) (fidsM : List (LyrSel × List Nat)) :
    List Geom × Option ExtractErr :=
  match fs.lookup filename with
  | none => ([], some .datasetNotFound)
  | some ds =>
      if ¬ (env.drivers.contains driver_name) then ([], some .driverUnavailable)
      else
        match layers with
        | .bareString _ => ([], some .malformedLayersArg)
        | .nonSeq => ([], some .malformedLayersArg)
        | .noneArg =>
            runLayers env ds ((List.range ds.layers.length).map LyrSel.idx)
              aoiM epsgM attrM fidsM
        | .seq ls => runLayers env ds ls aoiM epsgM attrM fidsM

/-! ## The file sink: `write_geoms_to_file` -/

/-- Errors of the file sink: an empty input sequence (the peek of the
first geometry fails), an invalid `mode` argument, and an unavailable
driver (attribute access on a `None` driver in the source). -/
inductive WriteErr
  | emptyInput
  | invalidMode
  | driverUnavailable
deriving DecidableEq, Repr

/-- Sequential feature creation: the store assigns consecutive feature
identifiers starting from the layer current feature count. -/
def mkFeatures (start : Nat) (gs : List Geom) : List Feature :=
  gs.enum.map (fun p => ⟨start + p.1, p.2⟩)

/-- Embedding of `_write_geoms_file` (io.py lines 290-303): delete any
dataset existing at the path, create a fresh dataset with one layer named
`layer_name` in the SRS built from the declared EPSG, and write every
geometry un-transformed, in order.  Returns the file system after the
call plus the error, if any. -/
def _write_geoms_file (fs : FileSystem) (geoms : List Geom) (geom_type : Nat)
    (srs : Int) (filename : String) (driverOk : Bool) (layer_name : String) :
    FileSystem × Option WriteErr :=
  if ¬ driverOk then (fs, some .driverUnavailable)
  else
    (fs.store filename ⟨[⟨layer_name, some srs, geom_type, mkFeatures 0 geoms⟩], true⟩,
     none)

/-- Embedding of `_update_geoms_file` (io.py lines 253-287): open the
dataset for writing, falling back to `_write_geoms_file` when that fails;
resolve the target layer (named layer, else first layer), creating it
fresh when the dataset has no layer; when the resolved layer EPSG is
resolvable and differs from the declared input EPSG, append every
geometry reprojected into the layer CRS, otherwise append
un-transformed. -/
def _update_geoms_file (fs : FileSystem) (geoms : List Geom) (geom_type : Nat)
    (geoms_epsg : Int) (srs : Int) (filename : String) (driverOk : Bool)
    (layer_name : String) : FileSystem × Option WriteErr :=
  if ¬ driverOk then (fs, some .driverUnavailable)
  else
    match openForWrite fs filename with
    | none => _write_geoms_file fs geoms geom_type srs filename driverOk layer_name
    | some ds =>
        match ds.resolveLayerIdx layer_name with
        | none =>
            let newLyr : Layer := ⟨layer_name, some srs, geom_type, mkFeatures 0 geoms⟩
            (fs.store filename ⟨ds.layers ++ [newLyr], ds.writable⟩, none)
        | some i =>
            let l := ds.layers.getD i default
            let transform_geom :=
              match l.epsg with
              | some le => if le ≠ geoms_epsg then get_transform_func geoms_epsg le
                           else unchanged_geom
              | none => unchanged_geom
            let newFeats := mkFeatures l.features.length (geoms.map transform_geom)
            (fs.store filename
               ⟨ds.layers.set i ⟨l.name, l.epsg, l.geomTypeCode, l.features ++ newFeats⟩,
                ds.writable⟩,
             none)

/-- Embedding of `write_geoms_to_file` (io.py lines 221-250): look the
driver up, peek the first geometry to determine the layer geometry-type
family (an empty sequence fails here, before anything touches the file
system), re-prepend it, validate `mode`, then dispatch to the update or
the overwrite path. -/
def write_geoms_to_file (env : OgrEnv) (fs : FileSystem) (geoms_iter : List Geom)
    (geoms_epsg : Int) (filename driver_name layer_name : String)
    (mode : String) : FileSystem × Option WriteErr :=
  let driverOk := env.drivers.contains driver_name
  match geoms_iter with
  | [] => (fs, some .emptyInput)
  | first :: rest =>
      let geom_type := geom_type_mapping first.gty
      let geoms := first :: rest
      if mode ≠ "update" ∧ mode ≠ "overwrite" then (fs, some .invalidMode)
      else if mode = "update" then
        _update_geoms_file fs geoms geom_type geoms_epsg geoms_epsg filename
          driverOk layer_name
      else
        _write_geoms_file fs geoms geom_type geoms_epsg filename driverOk layer_name

/-! ## Generator objects

Both source operations are generator functions in the source: calling
them builds a generator object from the arguments alone — no validation,
no I/O — and the body runs only when the returned sequence is iterated.
The call is modelled as a pure constructor whose type mentions no
environment, and iteration as the run over an environment. -/

/-- The generator object returned by a call of `fetch_geoms_from_pg`:
just the captured arguments. -/
structure PgGenObj where
  conn : Option Unit
  host : Option String
  dbname : Option String
  user : Option String
  password : Option String
  port : Option String
  sql_query : Option String
  schema : Option String
  table : Option String
  column : Option String
  aoi : Option Geom
  aoi_epsg : Option Int
  output_epsg : Option Int
deriving DecidableEq

/-- Calling `fetch_geoms_from_pg`: builds the generator object; the
signature takes no store environment, so no I/O can occur here. -/
def pg_gen_call (conn : Option Unit) (host dbname user password port : Option String)
    (sql_query schema table column : Option String) (aoi : Option Geom)
    (aoi_epsg output_epsg : Option Int) : PgGenObj :=
  ⟨conn, host, dbname, user, password, port, sql_query, schema, table, column,
   aoi, aoi_epsg, output_epsg⟩

/-- Iterating the generator to exhaustion: runs the captured body against
the store. -/
def PgGenObj.run (g : PgGenObj) (env : PgEnv) : PgResult :=
  fetch_geoms_from_pg env g.conn g.host g.dbname g.user g.password g.port
    g.sql_query g.schema g.table g.column g.aoi g.aoi_epsg g.output_epsg

/-- The generator object returned by a call of `extract_geoms_from_file`:
just the captured arguments. -/
structure FileGenObj where
  filename : String
  driver_name : String
  layers : LayersArg
  aoiM : List (LyrSel × Geom)
  epsgM : List (LyrSel × Int)
  attrM : List (LyrSel × String)
  fidsM : List (LyrSel × List Nat)
deriving DecidableEq

/-- Calling `extract_geoms_from_file`: builds the generator object; the
signature takes no environment and no file system, so no I/O can occur
here. -/
def file_gen_call (filename driver_name : String) (layers : LayersArg)
    (aoiM : List (LyrSel × Geom)) (epsgM : List (LyrSel × Int))
    (attrM : List (LyrSel × String)) (fidsM : List (LyrSel × List Nat)) :
    FileGenObj :=
  ⟨filename, driver_name, layers, aoiM, epsgM, attrM, fidsM⟩

/-- Iterating the generator to exhaustion: runs the captured body against
the driver environment and the file system. -/
def FileGenObj.run (g : FileGenObj) (env : OgrEnv) (fs : FileSystem) :
    List Geom × Option ExtractErr :=
  extract_geoms_from_file env fs g.filename g.driver_name g.layers g.aoiM
    g.epsgM g.attrM g.fidsM

/-! ## Helper lemmas -/

/-- Storing a dataset at a path makes it the dataset found at that path. -/
theorem FileSystem.lookup_store (fs : FileSystem) (p : String) (d : Dataset) :
    (fs.store p d).lookup p = some d := by
  simp [FileSystem.store, FileSystem.lookup, List.find?]

/-- Claim C6: given an empty input geometry sequence, `write_geoms_to_file`
fails with `EmptyInput` before writing anything, and no dataset or layer is
created or deleted at the target path (the file system is returned
unchanged), in every mode. -/
theorem write_geoms_to_file_empty_input (env : OgrEnv) (fs : FileSystem)
    (geoms_epsg : Int) (filename driver_name layer_name mode : String) :
    write_geoms_to_file env fs [] geoms_epsg filename driver_name layer_name mode
      = (fs, some .emptyInput) := rfl

/-- Claim C4: in update mode, when the dataset at the target path cannot be
opened for writing (it does not exist, or the driver cannot open it for
writing), the sink behaves exactly as in overwrite mode with the identical
input: same final file system, same (absence of) error. -/
theorem update_fallback_equals_overwrite (env : OgrEnv) (fs : FileSystem)
    (geoms : List Geom) (geoms_epsg : Int)
    (filename driver_name layer_name : String)
    (hopen : openForWrite fs filename = none) :
    write_geoms_to_file env fs geoms geoms_epsg filename driver_name layer_name
        "update"
      = write_geoms_to_file env fs geoms geoms_epsg filename driver_name
          layer_name "overwrite" := by
  cases geoms with
  | nil => rfl
  | cons g0 gs =>
      simp only [write_geoms_to_file, _update_geoms_file, _write_geoms_file, hopen]
      split <;> simp_all

/-- Claim C3: in overwrite mode, for every non-empty input sequence, the
target path ends up holding a fresh dataset with a single layer in the
declared source EPSG containing exactly the input geometries (the peeked
first one included, in input order), each un-transformed; and the dataset
found at the target path after the call does not depend on the prior
content of the file system. -/
theorem overwrite_fresh_content (env : OgrEnv) (fs : FileSystem) (g0 : Geom)
    (gs : List Geom) (geoms_epsg : Int) (filename driver_name layer_name : String)
    (hdrv : env.drivers.contains driver_name = true) :
    write_geoms_to_file env fs (g0 :: gs) geoms_epsg filename driver_name
        layer_name "overwrite"
      = (fs.store filename
           ⟨[⟨layer_name, some geoms_epsg, geom_type_mapping g0.gty,
              mkFeatures 0 (g0 :: gs)⟩], true⟩,
         none)
    ∧ ∀ fs' : FileSystem,
        (write_geoms_to_file env fs' (g0 :: gs) geoms_epsg filename driver_name
            layer_name "overwrite").1.lookup filename
          = (write_geoms_to_file env fs (g0 :: gs) geoms_epsg filename
              driver_name layer_name "overwrite").1.lookup filename := by
  have hmain : ∀ fs'' : FileSystem,
      write_geoms_to_file env fs'' (g0 :: gs) geoms_epsg filename driver_name
          layer_name "overwrite"
        = (fs''.store filename
             ⟨[⟨layer_name, some geoms_epsg, geom_type_mapping g0.gty,
                mkFeatures 0 (g0 :: gs)⟩], true⟩,
           none) := by
    intro fs''
    have hmem : driver_name ∈ env.drivers := by simpa using hdrv
    simp [write_geoms_to_file, _write_geoms_file, hmem]
  refine ⟨hmain fs, fun fs' => ?_⟩
  rw [hmain fs, hmain fs']
  simp [FileSystem.lookup_store]

/-- Claim C2: in update mode, when the target layer exists (resolved by
name, or the default first layer) and its native EPSG resolves to a value
different from the declared source EPSG, every incoming geometry is
appended reprojected into the layer native CRS; when the layer EPSG
cannot be resolved, every incoming geometry is appended un-transformed. -/
theorem update_mode_reprojection (env : OgrEnv) (fs : FileSystem) (g0 : Geom)
    (gs : List Geom) (geoms_epsg : Int) (filename driver_name layer_name : String)
    (ds : Dataset) (i : Nat) (l : Layer)
    (hdrv : env.drivers.contains driver_name = true)
    (hopen : openForWrite fs filename = some ds)
    (hidx : ds.resolveLayerIdx layer_name = some i)
    (hlyr : ds.layers[i]? = some l) :
    (∀ e : Int, l.epsg = some e → e ≠ geoms_epsg →
       write_geoms_to_file env fs (g0 :: gs) geoms_epsg filename driver_name
           layer_name "update"
         = (fs.store filename
              ⟨ds.layers.set i
                 ⟨l.name, l.epsg, l.geomTypeCode,
                  l.features ++ mkFeatures l.features.length
                    ((g0 :: gs).map (get_transform_func geoms_epsg e))⟩,
               ds.writable⟩,
            none))
    ∧ (l.epsg = none →
       write_geoms_to_file env fs (g0 :: gs) geoms_epsg filename driver_name
           layer_name "update"
         = (fs.store filename
              ⟨ds.layers.set i
                 ⟨l.name, l.epsg, l.geomTypeCode,
                  l.features ++ mkFeatures l.features.length (g0 :: gs)⟩,
               ds.writable⟩,
            none)) := by
  have hmem : driver_name ∈ env.drivers := by simpa using hdrv
  constructor
  · intro e hE hne
    simp [write_geoms_to_file, _update_geoms_file, hmem, hopen, hidx, hlyr, hE, hne]
  · intro hE
    simp [write_geoms_to_file, _update_geoms_file, hmem, hopen, hidx, hlyr, hE,
      unchanged_geom]

/-- The AOI installed on a layer after the per-layer resolution of
io.py lines 196-203: the declared AOI, reprojected into the layer CRS
exactly when a per-layer AOI EPSG is declared and the layer EPSG is
resolvable and different. -/
def installedAoi (l : Layer) (a0 : Geom) (aoiEpsg : Option Int) : Geom :=
  match aoiEpsg with
  | some e =>
      match l.epsg with
      | some le => if le ≠ e then get_transform_func e le a0 else a0
      | none => a0
  | none => a0

/-- When a spatial or an attribute filter is set for the layer, the
per-layer processing is the full scan with the installed filters. -/
theorem process_layer_scan (env : OgrEnv) (ds : Dataset) (sel : LyrSel)
    (aoiM : List (LyrSel × Geom)) (epsgM : List (LyrSel × Int))
    (attrM : List (LyrSel × String)) (fidsM : List (LyrSel × List Nat))
    (l : Layer) (hl : ds.getLayer sel = some l)
    (hfil : (amapGet aoiM sel).isSome ∨ (amapGet attrM sel).isSome) :
    process_layer env ds sel aoiM epsgM attrM fidsM
      = ((l.features.filter
            (featureMatches env
              ((amapGet aoiM sel).map
                (fun a0 => installedAoi l a0 (amapGet epsgM sel)))
              (amapGet attrM sel))).map (·.geom),
         none) := by
  rcases ha : amapGet aoiM sel with _ | a0
  · rcases hfil with hfil | hfil
    · rw [ha] at hfil; exact absurd hfil (by simp)
    · rcases hf : amapGet attrM sel with _ | flt
      · rw [hf] at hfil; exact absurd hfil (by simp)
      · simp [process_layer, hl, ha, hf]
  · rcases he : amapGet epsgM sel with _ | e <;>
      simp [process_layer, installedAoi, hl, ha, he]

/-- Claim C1: for a layer with a spatial (AOI) or an attribute filter set,
the source performs a full per-feature scan of the layer with the
installed filters applied, yields the geometry of every matching feature
(in feature order) with no error, and the outcome does not depend on the
feature-identifier map (the direct-fetch-by-ID fast path is not taken). -/
theorem filtered_scan_when_filters_set (env : OgrEnv) (ds : Dataset)
    (sel : LyrSel) (aoiM : List (LyrSel × Geom)) (epsgM : List (LyrSel × Int))
    (attrM : List (LyrSel × String)) (fidsM : List (LyrSel × List Nat))
    (l : Layer) (hl : ds.getLayer sel = some l)
    (hfil : (amapGet aoiM sel).isSome ∨ (amapGet attrM sel).isSome) :
    process_layer env ds sel aoiM epsgM attrM fidsM
      = ((l.features.filter
            (featureMatches env
              ((amapGet aoiM sel).map
                (fun a0 => installedAoi l a0 (amapGet epsgM sel)))
              (amapGet attrM sel))).map (·.geom),
         none)
    ∧ ∀ fidsM' : List (LyrSel × List Nat),
        process_layer env ds sel aoiM epsgM attrM fidsM'
          = process_layer env ds sel aoiM epsgM attrM fidsM :=
  ⟨process_layer_scan env ds sel aoiM epsgM attrM fidsM l hl hfil,
   fun fidsM' =>
     (process_layer_scan env ds sel aoiM epsgM attrM fidsM' l hl hfil).trans
       (process_layer_scan env ds sel aoiM epsgM attrM fidsM l hl hfil).symm⟩

/-- The direct-fetch loop, when every listed feature identifier is present
in the layer, yields exactly the geometries of the listed features in list
order, with no error. -/
theorem directFetchLoop_all_found (l : Layer) (fl : List Nat)
    (hall : ∀ fid ∈ fl,
      (l.features.find? (fun f => decide (f.fid = fid))).isSome = true) :
    directFetchLoop (some l) fl
      = (fl.map (fun fid =>
           ((l.features.find? (fun f => decide (f.fid = fid))).getD default).geom),
         none) := by
  induction fl with
  | nil => rfl
  | cons fid rest ih =>
      obtain ⟨f, hf⟩ := Option.isSome_iff_exists.mp (hall fid (by simp))
      have := ih (fun x hx => hall x (by simp [hx]))
      simp [directFetchLoop, hf, this]

/-- Claim C5: the direct-fetch-by-ID path is taken exactly when no AOI and
no attribute filter are set and a feature-identifier set is set: in that
case the source fetches exactly the listed feature IDs in order,
independently of the store filter predicates; when feature IDs are
combined with an AOI or an attribute filter, the IDs are ignored and the
full filtered scan is performed; and with no filters and no IDs the plain
full scan is performed. -/
theorem fast_path_characterisation (env : OgrEnv) (ds : Dataset) (sel : LyrSel)
    (aoiM : List (LyrSel × Geom)) (epsgM : List (LyrSel × Int))
    (attrM : List (LyrSel × String)) (fidsM : List (LyrSel × List Nat))
    (l : Layer) (hl : ds.getLayer sel = some l) :
    (∀ fl : List Nat, amapGet aoiM sel = none → amapGet attrM sel = none →
       amapGet fidsM sel = some fl →
       (∀ fid ∈ fl,
         (l.features.find? (fun f => decide (f.fid = fid))).isSome = true) →
       ∀ env' : OgrEnv,
         process_layer env' ds sel aoiM epsgM attrM fidsM
           = (fl.map (fun fid =>
                ((l.features.find? (fun f => decide (f.fid = fid))).getD
                   default).geom),
              none))
    ∧ ((amapGet aoiM sel).isSome ∨ (amapGet attrM sel).isSome →
       ∀ fM : List (LyrSel × List Nat),
         process_layer env ds sel aoiM epsgM attrM fM
           = ((l.features.filter
                 (featureMatches env
                   ((amapGet aoiM sel).map
                     (fun a0 => installedAoi l a0 (amapGet epsgM sel)))
                   (amapGet attrM sel))).map (·.geom),
              none))
    ∧ (amapGet aoiM sel = none → amapGet attrM sel = none →
       amapGet fidsM sel = none →
       process_layer env ds sel aoiM epsgM attrM fidsM
         = (l.features.map (·.geom), none)) := by
  refine ⟨?_, ?_, ?_⟩
  · intro fl ha hf hfid hall env'
    rw [show process_layer env' ds sel aoiM epsgM attrM fidsM
          = directFetchLoop (some l) fl by simp [process_layer, ha, hf, hfid, hl]]
    exact directFetchLoop_all_found l fl hall
  · intro hfil fM
    exact process_layer_scan env ds sel aoiM epsgM attrM fM l hl hfil
  · intro ha hf hfid
    simp [process_layer, ha, hf, hfid, hl]

/-- Claim C8: the database source fails with `MissingParameter` when no
explicit SQL query is supplied and the `(schema, table, column)` triple is
incomplete, and the failure occurs before any query is executed, any row
fetched or any geometry yielded (empty query trace, empty yield list). -/
theorem pg_missing_parameter (env : PgEnv) (conn : Option Unit)
    (host dbname user password port : Option String)
    (schema table column : Option String) (aoi : Option Geom)
    (aoi_epsg output_epsg : Option Int)
    (hmiss : schema = none ∨ table = none ∨ column = none) :
    fetch_geoms_from_pg env conn host dbname user password port none schema
        table column aoi aoi_epsg output_epsg
      = ⟨[], [], some .missingParameter⟩ := by
  unfold fetch_geoms_from_pg
  split
  · rfl
  · rcases schema with _ | s
    · rfl
    · rcases table with _ | t
      · rfl
      · rcases column with _ | c
        · rfl
        · simp at hmiss

/-- Claim C7: with a table specification and an AOI, when the AOI
declared EPSG differs from the store native EPSG for the target column,
the AOI embedded into the `ST_Intersects` retrieval predicate is the
reprojected one (the transform is applied before the query is built); when
the declared AOI EPSG equals the store EPSG, or no AOI EPSG is declared,
the AOI is embedded untransformed, so no reprojection is constructed or
applied (the symbolic serialization is injective). -/
theorem pg_aoi_reprojected_before_embedding (env : PgEnv) (conn : Option Unit)
    (host dbname user password port : Option String) (s t c : String)
    (a : Geom) (aoi_epsg output_epsg : Option Int)
    (hconn : conn.isSome = true) :
    (∀ e : Int, aoi_epsg = some e → e ≠ env.findSrid s t c →
       (fetch_geoms_from_pg env conn host dbname user password port none
           (some s) (some t) (some c) (some a) aoi_epsg output_epsg).queries
         = [pgSridQuery s t c,
            "SELECT ST_AsBinary(" ++
              (match output_epsg with
               | some oe => if oe ≠ env.findSrid s t c then
                   "ST_Transform(" ++ c ++ ", " ++ toString oe ++ ")" else c
               | none => c) ++ ") FROM " ++ s ++ "." ++ t ++ " " ++
              ("WHERE " ++ c ++ " IS NOT NULL") ++
              (" AND ST_Intersects(" ++ c ++ ", ST_GeomFromText(" ++ sq ++
                (get_transform_func e (env.findSrid s t c) a).wkt ++ sq ++
                ", " ++ toString (env.findSrid s t c) ++ "));")])
    ∧ ((aoi_epsg = none ∨ aoi_epsg = some (env.findSrid s t c)) →
       (fetch_geoms_from_pg env conn host dbname user password port none
           (some s) (some t) (some c) (some a) aoi_epsg output_epsg).queries
         = [pgSridQuery s t c,
            "SELECT ST_AsBinary(" ++
              (match output_epsg with
               | some oe => if oe ≠ env.findSrid s t c then
                   "ST_Transform(" ++ c ++ ", " ++ toString oe ++ ")" else c
               | none => c) ++ ") FROM " ++ s ++ "." ++ t ++ " " ++
              ("WHERE " ++ c ++ " IS NOT NULL") ++
              (" AND ST_Intersects(" ++ c ++ ", ST_GeomFromText(" ++ sq ++
                a.wkt ++ sq ++ ", " ++ toString (env.findSrid s t c) ++
                "));")]) := by
  obtain ⟨u, hu⟩ := Option.isSome_iff_exists.mp hconn
  subst hu
  constructor
  · intro e hE hne
    subst hE
    simp [fetch_geoms_from_pg, hne]
  · rintro (hE | hE) <;> subst hE <;> simp [fetch_geoms_from_pg]

/-- Claim C10: when an explicit SQL query is supplied, the result depends
only on that query (and the connection): the schema, table, column, AOI,
AOI EPSG and output EPSG arguments are silently ignored — two calls
differing only in those arguments produce identical results — and with a
valid connection the outcome is exactly the execution of that query alone
(in particular, also supplying a complete table specification raises no
parameter error). -/
theorem pg_explicit_query_ignores_rest (env : PgEnv) (conn : Option Unit)
    (host dbname user password port : Option String) (q : String)
    (s1 t1 c1 : Option String) (a1 : Option Geom) (e1 o1 : Option Int)
    (s2 t2 c2 : Option String) (a2 : Option Geom) (e2 o2 : Option Int) :
    fetch_geoms_from_pg env conn host dbname user password port (some q)
        s1 t1 c1 a1 e1 o1
      = fetch_geoms_from_pg env conn host dbname user password port (some q)
          s2 t2 c2 a2 e2 o2
    ∧ (conn.isSome = true →
       fetch_geoms_from_pg env conn host dbname user password port (some q)
           s1 t1 c1 a1 e1 o1
         = ⟨[q], (decodeRows (env.execQuery q)).1,
            (decodeRows (env.execQuery q)).2⟩) := by
  constructor
  · by_cases hc : conn = none ∧ (host = none ∨ dbname = none ∨ user = none ∨
        password = none ∨ port = none)
    · simp [fetch_geoms_from_pg, hc]
    · simp [fetch_geoms_from_pg, hc]
  · intro hconn
    obtain ⟨u, hu⟩ := Option.isSome_iff_exists.mp hconn
    subst hu
    simp [fetch_geoms_from_pg]

/-- Claim C9: both source operations are generator functions: the call
builds a pure generator object from the arguments alone (its type mentions
neither the store environment nor the file system, so the call performs no
validation and no I/O and cannot fail), and all fatal argument, driver and
file errors surface only when the returned sequence is iterated — yet
still before any geometry is yielded and before any query is executed
(empty yield list and empty query trace in every such case). -/
theorem generators_fail_only_at_iteration (env : PgEnv) (oenv : OgrEnv)
    (fs : FileSystem) (conn : Option Unit)
    (host dbname user password port : Option String)
    (sql_query schema table column : Option String) (aoi : Option Geom)
    (aoi_epsg output_epsg : Option Int) (filename driver_name st : String)
    (layers : LayersArg) (aoiM : List (LyrSel × Geom))
    (epsgM : List (LyrSel × Int)) (attrM : List (LyrSel × String))
    (fidsM : List (LyrSel × List Nat)) :
    (conn = none → host = none →
       (pg_gen_call conn host dbname user password port sql_query schema table
           column aoi aoi_epsg output_epsg).run env
         = ⟨[], [], some .missingParameter⟩)
    ∧ (sql_query = none → schema = none →
       (pg_gen_call conn host dbname user password port sql_query schema table
           column aoi aoi_epsg output_epsg).run env
         = ⟨[], [], some .missingParameter⟩)
    ∧ (fs.lookup filename = none →
       (file_gen_call filename driver_name layers aoiM epsgM attrM fidsM).run
           oenv fs
         = ([], some .datasetNotFound))
    ∧ ((fs.lookup filename).isSome = true →
       oenv.drivers.contains driver_name = false →
       (file_gen_call filename driver_name layers aoiM epsgM attrM fidsM).run
           oenv fs
         = ([], some .driverUnavailable))
    ∧ ((fs.lookup filename).isSome = true →
       oenv.drivers.contains driver_name = true →
       (file_gen_call filename driver_name (.bareString st) aoiM epsgM attrM
           fidsM).run oenv fs
         = ([], some .malformedLayersArg)) := by
  refine ⟨?_, ?_, ?_, ?_, ?_⟩
  · intro hc hh
    subst hc; subst hh
    simp [pg_gen_call, PgGenObj.run, fetch_geoms_from_pg]
  · intro hq hs
    subst hq; subst hs
    unfold pg_gen_call PgGenObj.run fetch_geoms_from_pg
    split
    · rfl
    · rfl
  · intro hlk
    simp [file_gen_call, FileGenObj.run, extract_geoms_from_file, hlk]
  · intro hlk hdrv
    obtain ⟨ds, hds⟩ := Option.isSome_iff_exists.mp hlk
    have hnm : driver_name ∉ oenv.drivers := by simpa using hdrv
    simp [file_gen_call, FileGenObj.run, extract_geoms_from_file, hds, hnm]
  · intro hlk hdrv
    obtain ⟨ds, hds⟩ := Option.isSome_iff_exists.mp hlk
    have hmem : driver_name ∈ oenv.drivers := by simpa using hdrv
    simp [file_gen_call, FileGenObj.run, extract_geoms_from_file, hds, hmem]

/-! ## Concrete instances used by the witnesses -/

/-- A sample point geometry. -/
def gA : Geom := ⟨.base 0, .point⟩

/-- Another sample point geometry. -/
def gB : Geom := ⟨.base 1, .point⟩

/-- A sample polygonal AOI. -/
def aoiG : Geom := ⟨.base 7, .polygon⟩

/-- A sample feature with identifier 5. -/
def featA : Feature := ⟨5, gA⟩

/-- A sample feature with identifier 7. -/
def featB : Feature := ⟨7, gB⟩

/-- A sample layer with a resolvable EPSG. -/
def lyrA : Layer := ⟨"roads", some 4326, 1, [featA, featB]⟩

/-- A sample layer whose EPSG cannot be resolved. -/
def lyrNoEpsg : Layer := ⟨"paths", none, 1, [featA]⟩

/-- A sample writable dataset holding `lyrA`. -/
def dsA : Dataset := ⟨[lyrA], true⟩

/-- A sample writable dataset holding `lyrNoEpsg`. -/
def dsNoEpsg : Dataset := ⟨[lyrNoEpsg], true⟩

/-- A file system with one dataset. -/
def fsA : FileSystem := ⟨[("a.gpkg", dsA)]⟩

/-- A file system with the unresolvable-EPSG dataset. -/
def fsN : FileSystem := ⟨[("b.gpkg", dsNoEpsg)]⟩

/-- An empty file system. -/
def fsEmpty : FileSystem := ⟨[]⟩

/-- A sample OGR environment whose filters accept everything. -/
def envO : OgrEnv := ⟨["GPKG"], fun _ _ => true, fun _ _ => true⟩

/-- A sample OGR environment with no drivers and filters that reject
everything. -/
def envO2 : OgrEnv := ⟨[], fun _ _ => false, fun _ _ => false⟩

/-- A sample relational store: every column has SRID 4326, and every query
returns a single well-formed row. -/
def envP : PgEnv := ⟨fun _ _ _ => 4326, fun _ => [some gA]⟩

/-! ## Witnesses -/

/-- Witness for claim C1 at a concrete layer with an AOI filter set. -/
theorem filtered_scan_when_filters_set_witness :
    dsA.getLayer (.idx 0) = some lyrA
    ∧ ((amapGet [(LyrSel.idx 0, aoiG)] (.idx 0)).isSome
        ∨ (amapGet ([] : List (LyrSel × String)) (.idx 0)).isSome)
    ∧ process_layer envO dsA (.idx 0) [(LyrSel.idx 0, aoiG)] [] [] []
        = ([gA, gB], none)
    ∧ process_layer envO dsA (.idx 0) [(LyrSel.idx 0, aoiG)] [] []
          [(LyrSel.idx 0, [5])]
        = process_layer envO dsA (.idx 0) [(LyrSel.idx 0, aoiG)] [] [] [] := by
  have h := filtered_scan_when_filters_set envO dsA (.idx 0)
    [(LyrSel.idx 0, aoiG)] [] [] [] lyrA (by decide) (by decide)
  exact ⟨by decide, by decide, h.1.trans (by decide), h.2 [(LyrSel.idx 0, [5])]⟩

/-- Witness for claim C2: a layer in EPSG 4326 receiving geometries
declared in EPSG 25832 gets them reprojected; a layer without a resolvable
EPSG gets them appended unchanged. -/
theorem update_mode_reprojection_witness :
    openForWrite fsA "a.gpkg" = some dsA
    ∧ dsA.resolveLayerIdx "roads" = some 0
    ∧ dsA.layers[0]? = some lyrA
    ∧ lyrA.epsg = some 4326
    ∧ (4326 : Int) ≠ 25832
    ∧ lyrNoEpsg.epsg = none
    ∧ write_geoms_to_file envO fsA [gA, gB] 25832 "a.gpkg" "GPKG" "roads"
          "update"
        = (fsA.store "a.gpkg"
             ⟨[⟨"roads", some 4326, 1,
                [featA, featB, ⟨2, ⟨.reproj 25832 4326 (.base 0), .point⟩⟩,
                 ⟨3, ⟨.reproj 25832 4326 (.base 1), .point⟩⟩]⟩], true⟩,
           none)
    ∧ write_geoms_to_file envO fsN [gA, gB] 25832 "b.gpkg" "GPKG" "paths"
          "update"
        = (fsN.store "b.gpkg"
             ⟨[⟨"paths", none, 1, [featA, ⟨1, gA⟩, ⟨2, gB⟩]⟩], true⟩,
           none) := by
  have h1 := update_mode_reprojection envO fsA gA [gB] 25832 "a.gpkg" "GPKG"
    "roads" dsA 0 lyrA (by decide) (by decide) (by decide) (by decide)
  have h2 := update_mode_reprojection envO fsN gA [gB] 25832 "b.gpkg" "GPKG"
    "paths" dsNoEpsg 0 lyrNoEpsg (by decide) (by decide) (by decide) (by decide)
  refine ⟨by decide, by decide, by decide, by decide, by decide, by decide,
    ?_, ?_⟩
  · exact (h1.1 4326 (by decide) (by decide)).trans (by decide)
  · exact (h2.2 (by decide)).trans (by decide)

/-- Witness for claim C3: overwriting a path that already holds a dataset
replaces it with exactly the written geometries; starting from an empty
file system gives the same dataset at the path. -/
theorem overwrite_fresh_content_witness :
    envO.drivers.contains "GPKG" = true
    ∧ write_geoms_to_file envO fsA [gA, gB] 4326 "a.gpkg" "GPKG" "out"
          "overwrite"
        = (fsA.store "a.gpkg" ⟨[⟨"out", some 4326, 1, [⟨0, gA⟩, ⟨1, gB⟩]⟩], true⟩,
           none)
    ∧ (write_geoms_to_file envO fsEmpty [gA, gB] 4326 "a.gpkg" "GPKG" "out"
          "overwrite").1.lookup "a.gpkg"
        = (write_geoms_to_file envO fsA [gA, gB] 4326 "a.gpkg" "GPKG" "out"
            "overwrite").1.lookup "a.gpkg" := by
  have h := overwrite_fresh_content envO fsA gA [gB] 4326 "a.gpkg" "GPKG" "out"
    (by decide)
  exact ⟨by decide, h.1.trans (by decide), h.2 fsEmpty⟩

/-- Witness for claim C4 at a path with no dataset. -/
theorem update_fallback_equals_overwrite_witness :
    openForWrite fsEmpty "x.shp" = none
    ∧ write_geoms_to_file envO fsEmpty [gA] 4326 "x.shp" "GPKG" "lyr" "update"
        = write_geoms_to_file envO fsEmpty [gA] 4326 "x.shp" "GPKG" "lyr"
            "overwrite" :=
  ⟨by decide,
   update_fallback_equals_overwrite envO fsEmpty [gA] 4326 "x.shp" "GPKG" "lyr"
     (by decide)⟩

/-- Witness for claim C5: with only feature IDs set, exactly the listed
features are fetched (in list order, independently of the filter
collaborator); with an AOI also set, the IDs are ignored; with nothing
set, the full layer is scanned. -/
theorem fast_path_characterisation_witness :
    dsA.getLayer (.idx 0) = some lyrA
    ∧ amapGet ([] : List (LyrSel × Geom)) (.idx 0) = none
    ∧ amapGet [(LyrSel.idx 0, [7, 5])] (.idx 0) = some [7, 5]
    ∧ (∀ fid ∈ [7, 5],
        (lyrA.features.find? (fun f => decide (f.fid = fid))).isSome = true)
    ∧ process_layer envO2 dsA (.idx 0) [] [] [] [(LyrSel.idx 0, [7, 5])]
        = ([gB, gA], none)
    ∧ process_layer envO dsA (.idx 0) [(LyrSel.idx 0, aoiG)] [] []
          [(LyrSel.idx 0, [7, 5])]
        = ([gA, gB], none)
    ∧ process_layer envO dsA (.idx 0) [] [] [] [] = ([gA, gB], none) := by
  have h1 := fast_path_characterisation envO dsA (.idx 0) [] []
    [] [(LyrSel.idx 0, [7, 5])] lyrA (by decide)
  have h2 := fast_path_characterisation envO dsA (.idx 0)
    [(LyrSel.idx 0, aoiG)] [] [] [(LyrSel.idx 0, [7, 5])] lyrA (by decide)
  have h3 := fast_path_characterisation envO dsA (.idx 0) [] [] [] [] lyrA
    (by decide)
  refine ⟨by decide, by decide, by decide, by decide, ?_, ?_, ?_⟩
  · exact (h1.1 [7, 5] (by decide) (by decide) (by decide) (by decide)
      envO2).trans (by decide)
  · exact ((h2.2.1 (by decide) [(LyrSel.idx 0, [7, 5])]).trans (by decide))
  · exact h3.2.2 (by decide) (by decide) (by decide)

/-- Witness for claim C7: with store SRID 4326 and an AOI declared in EPSG
25832, the predicate embeds the reprojected AOI; with the AOI declared in
EPSG 4326, the predicate embeds the AOI untransformed. -/
theorem pg_aoi_reprojected_before_embedding_witness :
    (some () : Option Unit).isSome = true
    ∧ (25832 : Int) ≠ envP.findSrid "public" "roads" "geom"
    ∧ (fetch_geoms_from_pg envP (some ()) none none none none none none
         (some "public") (some "roads") (some "geom") (some aoiG)
         (some 25832) none).queries
        = [pgSridQuery "public" "roads" "geom",
           "SELECT ST_AsBinary(geom) FROM public.roads WHERE geom IS NOT NULL"
             ++ " AND ST_Intersects(geom, ST_GeomFromText(" ++ sq
             ++ "REPROJ_25832_4326_GEOM_7" ++ sq ++ ", 4326));"]
    ∧ (fetch_geoms_from_pg envP (some ()) none none none none none none
         (some "public") (some "roads") (some "geom") (some aoiG)
         (some 4326) none).queries
        = [pgSridQuery "public" "roads" "geom",
           "SELECT ST_AsBinary(geom) FROM public.roads WHERE geom IS NOT NULL"
             ++ " AND ST_Intersects(geom, ST_GeomFromText(" ++ sq
             ++ "GEOM_7" ++ sq ++ ", 4326));"] := by
  have h1 := pg_aoi_reprojected_before_embedding envP (some ()) none none none
    none none "public" "roads" "geom" aoiG (some 25832) none rfl
  have h2 := pg_aoi_reprojected_before_embedding envP (some ()) none none none
    none none "public" "roads" "geom" aoiG (some 4326) none rfl
  refine ⟨rfl, by decide, ?_, ?_⟩
  · exact (h1.1 25832 rfl (by decide)).trans (by decide)
  · exact (h2.2 (by decide)).trans (by decide)

/-- Witness for claim C8 with a missing `table` argument. -/
theorem pg_missing_parameter_witness :
    ((some "public" : Option String) = none ∨ (none : Option String) = none
      ∨ (some "geom" : Option String) = none)
    ∧ fetch_geoms_from_pg envP (some ()) none none none none none none
        (some "public") none (some "geom") none none none
      = ⟨[], [], some .missingParameter⟩ :=
  ⟨by decide,
   pg_missing_parameter envP (some ()) none none none none none
     (some "public") none (some "geom") none none none (by decide)⟩

/-- Witness for claim C10: two calls with the same explicit query but
wildly different table/AOI arguments coincide, and the outcome is exactly
the execution of the query. -/
theorem pg_explicit_query_ignores_rest_witness :
    (some () : Option Unit).isSome = true
    ∧ fetch_geoms_from_pg envP (some ()) none none none none none (some "Q")
        (some "s") (some "t") (some "c") (some aoiG) (some 1) (some 2)
      = fetch_geoms_from_pg envP (some ()) none none none none none (some "Q")
          none none none none none none
    ∧ fetch_geoms_from_pg envP (some ()) none none none none none (some "Q")
        (some "s") (some "t") (some "c") (some aoiG) (some 1) (some 2)
      = ⟨["Q"], [gA], none⟩ := by
  have h := pg_explicit_query_ignores_rest envP (some ()) none none none none
    none "Q" (some "s") (some "t") (some "c") (some aoiG) (some 1) (some 2)
    none none none none none none
  exact ⟨rfl, h.1, (h.2 rfl).trans (by decide)⟩

/-- Witness for claim C9: concrete fatal conditions for both generators,
each surfacing at iteration with nothing yielded and no query executed. -/
theorem generators_fail_only_at_iteration_witness :
    fsEmpty.lookup "x.gpkg" = none
    ∧ (fsA.lookup "a.gpkg").isSome = true
    ∧ envO.drivers.contains "BAD" = false
    ∧ envO.drivers.contains "GPKG" = true
    ∧ (pg_gen_call none none none none none none none none none none none
         none none).run envP
      = ⟨[], [], some .missingParameter⟩
    ∧ (file_gen_call "x.gpkg" "GPKG" .noneArg [] [] [] []).run envO fsEmpty
      = ([], some .datasetNotFound)
    ∧ (file_gen_call "a.gpkg" "BAD" .noneArg [] [] [] []).run envO fsA
      = ([], some .driverUnavailable)
    ∧ (file_gen_call "a.gpkg" "GPKG" (.bareString "lyr") [] [] [] []).run envO
        fsA
      = ([], some .malformedLayersArg) := by
  have h1 := generators_fail_only_at_iteration envP envO fsEmpty none none none
    none none none none none none none none none none "x.gpkg" "GPKG" "lyr"
    .noneArg [] [] [] []
  have h2 := generators_fail_only_at_iteration envP envO fsA none none none
    none none none none none none none none none none "a.gpkg" "BAD" "lyr"
    .noneArg [] [] [] []
  have h3 := generators_fail_only_at_iteration envP envO fsA none none none
    none none none none none none none none none none "a.gpkg" "GPKG" "lyr"
    .noneArg [] [] [] []
  refine ⟨by decide, by decide, by decide, by decide, ?_, ?_, ?_, ?_⟩
  · exact h1.1 rfl rfl
  · exact h1.2.2.1 (by decide)
  · exact h2.2.2.2.1 (by decide) (by decide)
  · exact h3.2.2.2.2 (by decide) (by decide)

end GeomCompare
